import Mathlib

/-!
Verification of the pipefunc function-composition library (src/src/main.ts).

The library's internals erase all static types: every stored stage is an
`AnyFunction = (...a: unknown[]) => unknown`, argument lists are plain arrays,
and execution is `pipeline.reduce((args, func) => [func(...args)], args)[0]`.
We model the runtime value universe by a type `V`, an `AnyFunction` by
`List V → V`, and the `reduce` by a left fold; the trailing `[0]` becomes
`List.head?` (`none` plays the role of `undefined`).
-/

namespace Pipefunc

/-- The runtime shape of a stored stage: `(...a: unknown[]) => unknown`. -/
def AnyFunction (V : Type) : Type := List V → V

/-- A unary user function, as the internals call it: `g(...args)` where `args`
is the current one-element array. `List.headI` supplies a default when the
array is empty, playing the role of JavaScript `undefined`. -/
def unaryFn {V : Type} [Inhabited V] (g : V → V) : AnyFunction V :=
  fun l => g l.headI

/-- `makeExec` (main.ts lines 49-52): given the array of stages, return the
function that reduces over it, wrapping each stage's result in a singleton
array, and projects out index 0 of the final array. -/
def makeExec {V : Type} (pipeline : List (AnyFunction V)) : List V → Option V :=
  fun args => (pipeline.foldl (fun acc func => [func acc]) args).head?

/-- The argument passed to a builder or pipe call. JavaScript distinguishes an
absent argument, an explicit `undefined`, an explicit `null`, and a function;
the source dispatches with `func != null`, which lumps the first three
together. -/
inductive JSArg (F : Type) where
  | absent
  | nullArg
  | undefinedArg
  | fn (f : F)

/-- A user-supplied function as the reverse builder sees it: its runtime
behaviour together with its JavaScript `Function.length` (the declared
parameter count; 0 for a purely variadic function). -/
structure JSFunction (V : Type) where
  length : Nat
  fn : AnyFunction V

/-- The state of a forward pipeline builder: the closed-over `pipeline` array. -/
structure PipelineBuilder (V : Type) where
  pipeline : List (AnyFunction V)

/-- `pipelineBuilder(func, previous)` (main.ts lines 60-70): the new builder
closes over `[...previous, func]`. -/
def pipelineBuilder {V : Type} (func : AnyFunction V) (previous : List (AnyFunction V)) :
    PipelineBuilder V :=
  ⟨previous ++ [func]⟩

/-- `pipeline(func)` (main.ts line 39-41): start a forward builder with the
seed as the only stage (`previous` defaults to the empty array). -/
def pipeline {V : Type} (func : AnyFunction V) : PipelineBuilder V :=
  pipelineBuilder func []

/-- What a call on a forward builder returns: either a new builder or the
executable composed function. -/
inductive PipelineCallResult (V : Type) where
  | builder (b : PipelineBuilder V)
  | exec (e : List V → Option V)

/-- The body of the forward builder (main.ts lines 63-69): with a function it
returns `pipelineBuilder(func, pipeline)`, otherwise (`func != null` fails,
i.e. absent, `null` or `undefined`) it returns `makeExec(pipeline)`. -/
def PipelineBuilder.call {V : Type} (b : PipelineBuilder V) :
    JSArg (AnyFunction V) → PipelineCallResult V
  | .fn func => .builder (pipelineBuilder func b.pipeline)
  | _ => .exec (makeExec b.pipeline)

/-- The state of a terminal reverse builder: the array captured by the arrow
`() => makeExec<P, R>(pipeline)` (main.ts line 128). -/
structure TerminalPipelineBuilder (V : Type) where
  pipeline : List (AnyFunction V)

/-- The state of a reverse pipeline builder: the closed-over `pipeline` array. -/
structure ReversePipelineBuilder (V : Type) where
  pipeline : List (AnyFunction V)

/-- `reversePipelineBuilder(func, next)` (main.ts line 123-124): the new
builder closes over `[func, ...next]`. -/
def reversePipelineBuilder {V : Type} (func : AnyFunction V) (next : List (AnyFunction V)) :
    ReversePipelineBuilder V :=
  ⟨func :: next⟩

/-- `reversePipeline(func)` (main.ts lines 119-121): start a reverse builder
with the terminal stage as the only stage (`next` defaults to `[]`). -/
def reversePipeline {V : Type} (func : AnyFunction V) : ReversePipelineBuilder V :=
  reversePipelineBuilder func []

/-- What a call on a reverse builder returns: a new extensible builder, a
terminal builder, or the executable composed function. -/
inductive ReverseCallResult (V : Type) where
  | builder (b : ReversePipelineBuilder V)
  | terminal (t : TerminalPipelineBuilder V)
  | exec (e : List V → Option V)

/-- The body of the reverse builder (main.ts lines 126-135). With a function
of `length > 1` it returns `() => makeExec<P, R>(pipeline)` — note that the
captured `pipeline` is the builder's own array, which does NOT contain the
newly supplied function. With any other function it returns
`reversePipelineBuilder(func, pipeline)`; with a nullish argument it returns
`makeExec(pipeline)`. -/
def ReversePipelineBuilder.call {V : Type} (b : ReversePipelineBuilder V) :
    JSArg (JSFunction V) → ReverseCallResult V
  | .fn func =>
      if func.length > 1 then
        .terminal ⟨b.pipeline⟩
      else
        .builder (reversePipelineBuilder func.fn b.pipeline)
  | _ => .exec (makeExec b.pipeline)

/-- Calling the terminal builder `() => makeExec<P, R>(pipeline)` (main.ts
line 128): a zero-parameter arrow ignores every argument and returns the
executable of the captured array. -/
def TerminalPipelineBuilder.call {V : Type} (t : TerminalPipelineBuilder V)
    (_a : JSArg (JSFunction V)) : List V → Option V :=
  makeExec t.pipeline

/-- A value pipe: the closed-over `value` (main.ts lines 170-177). -/
structure Pipe (V : Type) where
  value : V

/-- `pipe(value)`: wrap a value. -/
def pipe {V : Type} (value : V) : Pipe V :=
  ⟨value⟩

/-- What a call on a pipe returns: a new pipe or the unwrapped value. -/
inductive PipeCallResult (V : Type) where
  | piped (p : Pipe V)
  | value (v : V)

/-- The body of a pipe (main.ts lines 171-176): with a nullish argument it
returns the wrapped value, otherwise it returns `pipe(func(value))`. -/
def Pipe.call {V : Type} (p : Pipe V) : JSArg (V → V) → PipeCallResult V
  | .fn func => .piped (pipe (func p.value))
  | _ => .value p.value

/-- The body of a pipe with the user function's effects made explicit in a
monad `M`: `return pipe(func(value))` evaluates `func(value)` — and performs
its effects — before the new pipe is constructed, and a nullish call performs
no effect at all. -/
def Pipe.callM {V : Type} {M : Type → Type} [Monad M] (p : Pipe V) :
    JSArg (V → M V) → M (PipeCallResult V)
  | .fn func => do
      let r ← func p.value
      pure (.piped (pipe r))
  | _ => pure (.value p.value)

/-- Instrument a pure unary function so that every invocation appends its
argument to a running log: the log of a run is the exact sequence of
invocations made, in order, each entry the argument it received. -/
def recorded {V : Type} (f : V → V) : V → StateM (List V) V :=
  fun x => fun log => (f x, log ++ [x])

/-- One step of `makeExec`'s reduce, in the exception monad: a stage that
throws makes the whole step throw; otherwise the result is wrapped in a
singleton array. -/
def execStepE {V E : Type} (acc : List V) (func : List V → Except E V) : Except E (List V) :=
  (func acc).map (fun r => [r])

/-- The reduce of `makeExec`, in the exception monad: a throwing stage aborts
the fold exactly as a throwing callback aborts `Array.prototype.reduce`,
leaving the remaining stages uninvoked. -/
def runStagesE {V E : Type} (pipeline : List (List V → Except E V)) (args : List V) :
    Except E (List V) :=
  pipeline.foldlM execStepE args

/-- `makeExec` in the exception monad: run the reduce, then project index 0. -/
def makeExecE {V E : Type} (pipeline : List (List V → Except E V)) (args : List V) :
    Except E (Option V) :=
  (runStagesE pipeline args).map List.head?

/-- Failing-input stage for claim C1: the unary `(x) => x + 1`. -/
def incAny : AnyFunction Nat :=
  fun l => l.headI + 1

/-- Failing-input stage for claim C1: the binary `(x, y) => x * y`. -/
def mulAny : AnyFunction Nat :=
  fun l => l.headI * l.tail.headI

/-- Concrete stage for the C4 witness: returns its input's head. -/
def okHead : List Nat → Except Nat Nat :=
  fun l => .ok l.headI

/-- Concrete stage for the C4 witness: always throws the exception `7`. -/
def throw7 : List Nat → Except Nat Nat :=
  fun _ => .error 7

/-- Concrete stage for the C4 witness: a later stage that would return `99`. -/
def ok99 : List Nat → Except Nat Nat :=
  fun _ => .ok 99

end Pipefunc

namespace Pipefunc

theorem runStagesE_nil {V E : Type} (args : List V) :
    runStagesE ([] : List (List V → Except E V)) args = Except.ok args :=
  rfl

theorem runStagesE_cons {V E : Type} (f : List V → Except E V)
    (l : List (List V → Except E V)) (args : List V) :
    runStagesE (f :: l) args = (execStepE args f) >>= runStagesE l :=
  rfl

theorem runStagesE_append {V E : Type} (l1 l2 : List (List V → Except E V)) (args : List V) :
    runStagesE (l1 ++ l2) args = runStagesE l1 args >>= runStagesE l2 := by
  induction l1 generalizing args with
  | nil => simp [runStagesE_nil, runStagesE]
  | cons f l1 ih =>
      rw [List.cons_append, runStagesE_cons, runStagesE_cons, bind_assoc]
      exact bind_congr fun x => ih x

/-- Claim C1 (code bug): supplying the binary function `(x, y) => x * y` to
`reversePipeline((x) => x + 1)` yields a terminal builder whose captured
pipeline is still just `[incAny]` — the multi-argument stage has been
dropped — and the finalized function applied to `(2, 3)` returns
`incAny(2) = 3`, whereas the documented behaviour (the spec, the overload's
doc comment, the `TerminalPipelineBuilder<U, R>` return type, and the
pre-1.2.0 implementation) is `incAny(mulAny(2, 3)) = 7`. -/
theorem claim_C1_code_bug_eval :
    (reversePipeline incAny).call (JSArg.fn ⟨2, mulAny⟩)
        = ReverseCallResult.terminal ⟨[incAny]⟩
    ∧ (⟨[incAny]⟩ : TerminalPipelineBuilder Nat).call JSArg.absent [2, 3] = some 3
    ∧ incAny [mulAny [2, 3]] = 7 :=
  ⟨rfl, rfl, rfl⟩

/-- Claim C2: for every seed `f`, unary stages `g`, `h` and argument list `a`,
the chain `pipeline(f)(g)(h)()` finalizes to the executable of
`[f, g, h]`, and that executable applied to `a` returns `h(g(f(...a)))`. -/
theorem claim_C2 {V : Type} [Inhabited V] (f : AnyFunction V) (g h : V → V) (a : List V) :
    (pipeline f).call (JSArg.fn (unaryFn g))
        = PipelineCallResult.builder (pipelineBuilder (unaryFn g) [f])
    ∧ (pipelineBuilder (unaryFn g) [f]).call (JSArg.fn (unaryFn h))
        = PipelineCallResult.builder (pipelineBuilder (unaryFn h) [f, unaryFn g])
    ∧ (pipelineBuilder (unaryFn h) [f, unaryFn g]).call JSArg.absent
        = PipelineCallResult.exec (makeExec [f, unaryFn g, unaryFn h])
    ∧ makeExec [f, unaryFn g, unaryFn h] a = some (h (g (f a))) :=
  ⟨rfl, rfl, rfl, rfl⟩

/-- Claim C3: for unary stages `a` and `b`, the chain
`reversePipeline(a)(b)()` finalizes to the executable of `[b, a]` — the most
recently added stage first — and applied to `x` it returns `a(b(x))`. -/
theorem claim_C3 {V : Type} [Inhabited V] (a b : V → V) (x : V) :
    (reversePipeline (unaryFn a)).call (JSArg.fn ⟨1, unaryFn b⟩)
        = ReverseCallResult.builder (reversePipelineBuilder (unaryFn b) [unaryFn a])
    ∧ (reversePipelineBuilder (unaryFn b) [unaryFn a]).call JSArg.absent
        = ReverseCallResult.exec (makeExec [unaryFn b, unaryFn a])
    ∧ makeExec [unaryFn b, unaryFn a] [x] = some (a (b x)) :=
  ⟨rfl, rfl, rfl⟩

/-- Claim C4: if the stages before `f` run without throwing, producing the
intermediate array `acc`, and `f` throws `e` on `acc`, then the finalized
executable (forward and reverse pipelines both finalize to `makeExec` of
their stage array) propagates exactly the exception `e` — whatever stages
`rest` follow `f`, so no later stage is ever invoked. -/
theorem claim_C4 {V E : Type} (pre : List (List V → Except E V)) (f : List V → Except E V)
    (args acc : List V) (e : E)
    (hpre : runStagesE pre args = Except.ok acc) (hf : f acc = Except.error e)
    (rest : List (List V → Except E V)) :
    makeExecE (pre ++ f :: rest) args = Except.error e := by
  have h1 : runStagesE (pre ++ f :: rest) args = Except.error e := by
    rw [runStagesE_append, hpre]
    show runStagesE (f :: rest) acc = Except.error e
    rw [runStagesE_cons]
    show ((f acc).map fun r => [r]) >>= runStagesE rest = Except.error e
    rw [hf]
    rfl
  unfold makeExecE
  rw [h1]
  rfl

/-- Witness for claim C4 at a concrete input: the pipeline
`[okHead, throw7, ok99]` applied to `[5]` throws the exception `7` even
though a later stage (`ok99`) exists. -/
theorem claim_C4_witness :
    makeExecE ([okHead] ++ throw7 :: [ok99]) [5] = Except.error 7 :=
  claim_C4 [okHead] throw7 [5] [5] 7 rfl rfl [ok99]

/-- Claim C5: from the single builder `pipeline(f)`, the calls with `g` and
with `h` produce two independent builders — finalizing to `g(f(...))` and
`h(f(...))` respectively — while the original builder's stage list is still
`[f]`, so it can itself be finalized (to a function behaving as `f`) or
extended again, every time with the same result. -/
theorem claim_C5 {V : Type} [Inhabited V] (f : AnyFunction V) (g h : V → V)
    (a1 a2 a3 : List V) :
    (pipeline f).call (JSArg.fn (unaryFn g))
        = PipelineCallResult.builder ⟨[f, unaryFn g]⟩
    ∧ (pipeline f).call (JSArg.fn (unaryFn h))
        = PipelineCallResult.builder ⟨[f, unaryFn h]⟩
    ∧ makeExec [f, unaryFn g] a1 = some (g (f a1))
    ∧ makeExec [f, unaryFn h] a2 = some (h (f a2))
    ∧ (pipeline f).call JSArg.absent = PipelineCallResult.exec (makeExec [f])
    ∧ makeExec [f] a3 = some (f a3)
    ∧ (pipeline f).pipeline = [f] :=
  ⟨rfl, rfl, rfl, rfl, rfl, rfl, rfl⟩

/-- Claim C6: once a function with declared parameter count above 1 is
supplied, the returned object is a terminal builder: every call on it,
whatever its argument — another function, `null`, `undefined` or nothing —
returns the executable of the captured pipeline, never a builder, so no
further stage can be added. -/
theorem claim_C6 {V : Type} (b : ReversePipelineBuilder V) (func : JSFunction V)
    (h : func.length > 1) :
    ∃ t : TerminalPipelineBuilder V,
      b.call (JSArg.fn func) = ReverseCallResult.terminal t
      ∧ ∀ a : JSArg (JSFunction V), t.call a = makeExec t.pipeline := by
  refine ⟨⟨b.pipeline⟩, ?_, fun a => rfl⟩
  show (if func.length > 1 then ReverseCallResult.terminal ⟨b.pipeline⟩
        else ReverseCallResult.builder (reversePipelineBuilder func.fn b.pipeline))
      = ReverseCallResult.terminal ⟨b.pipeline⟩
  rw [if_pos h]

/-- Witness for claim C6 at a concrete input: supplying the binary `mulAny`
to `reversePipeline(incAny)` yields a finalize-only terminal builder. -/
theorem claim_C6_witness :
    ∃ t : TerminalPipelineBuilder Nat,
      (reversePipeline incAny).call (JSArg.fn ⟨2, mulAny⟩) = ReverseCallResult.terminal t
      ∧ ∀ a : JSArg (JSFunction Nat), t.call a = makeExec t.pipeline :=
  claim_C6 (reversePipeline incAny) ⟨2, mulAny⟩ (by decide)

/-- Claim C7: `pipeline(f)()` finalizes to the executable of `[f]`, which on
every argument list returns exactly `f`'s result; and in the
exception-instrumented semantics a one-stage pipeline returns exactly what
the seed returns — the same value or the same thrown exception. -/
theorem claim_C7 {V E : Type} (f : AnyFunction V) (args : List V)
    (fe : List V → Except E V) (argse : List V) :
    (pipeline f).call JSArg.absent = PipelineCallResult.exec (makeExec [f])
    ∧ makeExec [f] args = some (f args)
    ∧ makeExecE [fe] argse = (fe argse).map some := by
  refine ⟨rfl, rfl, ?_⟩
  unfold makeExecE runStagesE
  rcases hfe : fe argse with e | v <;>
    simp [List.foldlM, execStepE, hfe, Except.map]

/-- Claim C8: in the state monad logging every invocation of the user
function, the chain call `pipe(v)(f)` itself performs exactly one invocation
of `f`, with argument `v` (log `[v]`), and returns a pipe wrapping `f(v)`;
the pure semantics agrees; and finalization performs no invocation at all
(its log is unchanged), so the invocation happens regardless of whether the
pipe is ever finalized. -/
theorem claim_C8 {V : Type} (f : V → V) (v : V) :
    ((pipe v).callM (JSArg.fn (recorded f))).run []
        = (PipeCallResult.piped (pipe (f v)), [v])
    ∧ (pipe v).call (JSArg.fn f) = PipeCallResult.piped (pipe (f v))
    ∧ ∀ (w : V) (s : List V),
        ((pipe w).callM (M := StateM (List V)) JSArg.absent).run s
            = (PipeCallResult.value w, s) :=
  ⟨rfl, rfl, fun _ _ => rfl⟩

/-- Claim C9: on a non-terminal reverse builder, a supplied function of
declared parameter count at most 1 — which includes a variadic function,
whose count is 0 — is prepended as the new first-to-execute stage of an
extensible builder (the new stage runs first: executing the extended
pipeline equals executing the old one on the new stage's result); only a
count strictly greater than 1 takes the terminal branch. -/
theorem claim_C9 {V : Type} (b : ReversePipelineBuilder V) (func : JSFunction V) :
    (func.length ≤ 1 →
      b.call (JSArg.fn func)
          = ReverseCallResult.builder (reversePipelineBuilder func.fn b.pipeline)
      ∧ ∀ args : List V,
          makeExec (func.fn :: b.pipeline) args = makeExec b.pipeline [func.fn args])
    ∧ (func.length > 1 →
      b.call (JSArg.fn func) = ReverseCallResult.terminal ⟨b.pipeline⟩) := by
  constructor
  · intro h
    refine ⟨?_, fun args => rfl⟩
    show (if func.length > 1 then ReverseCallResult.terminal ⟨b.pipeline⟩
          else ReverseCallResult.builder (reversePipelineBuilder func.fn b.pipeline))
        = ReverseCallResult.builder (reversePipelineBuilder func.fn b.pipeline)
    rw [if_neg (Nat.not_lt.mpr h)]
  · intro h
    show (if func.length > 1 then ReverseCallResult.terminal ⟨b.pipeline⟩
          else ReverseCallResult.builder (reversePipelineBuilder func.fn b.pipeline))
        = ReverseCallResult.terminal ⟨b.pipeline⟩
    rw [if_pos h]

/-- Witness for claim C9 at concrete inputs: a variadic-style function of
declared parameter count 0 extends the builder, while the same behaviour
with declared count 2 takes the terminal branch. -/
theorem claim_C9_witness :
    ((⟨[incAny]⟩ : ReversePipelineBuilder Nat).call (JSArg.fn ⟨0, mulAny⟩)
        = ReverseCallResult.builder (reversePipelineBuilder mulAny [incAny]))
    ∧ ((⟨[incAny]⟩ : ReversePipelineBuilder Nat).call (JSArg.fn ⟨2, mulAny⟩)
        = ReverseCallResult.terminal ⟨[incAny]⟩) :=
  ⟨((claim_C9 ⟨[incAny]⟩ ⟨0, mulAny⟩).1 (by decide)).1,
   (claim_C9 ⟨[incAny]⟩ ⟨2, mulAny⟩).2 (by decide)⟩

/-- Claim C10: both builders and the pipe dispatch with `func != null`, so an
explicit `null` or `undefined` argument takes the same branch as the
no-argument call: the builders finalize into the executable of their
pipeline, the pipe returns its wrapped value, and no stage is added and no
error is raised. -/
theorem claim_C10 {V : Type} (b : PipelineBuilder V) (rb : ReversePipelineBuilder V)
    (p : Pipe V) :
    b.call JSArg.nullArg = PipelineCallResult.exec (makeExec b.pipeline)
    ∧ b.call JSArg.undefinedArg = PipelineCallResult.exec (makeExec b.pipeline)
    ∧ b.call JSArg.absent = PipelineCallResult.exec (makeExec b.pipeline)
    ∧ rb.call JSArg.nullArg = ReverseCallResult.exec (makeExec rb.pipeline)
    ∧ rb.call JSArg.undefinedArg = ReverseCallResult.exec (makeExec rb.pipeline)
    ∧ rb.call JSArg.absent = ReverseCallResult.exec (makeExec rb.pipeline)
    ∧ p.call JSArg.nullArg = PipeCallResult.value p.value
    ∧ p.call JSArg.undefinedArg = PipeCallResult.value p.value
    ∧ p.call JSArg.absent = PipeCallResult.value p.value :=
  ⟨rfl, rfl, rfl, rfl, rfl, rfl, rfl, rfl, rfl⟩

end Pipefunc
